import Mathlib

/-
Verification of the RAG chat front-end (src/frontend/react-app/src/App.js).

The repository contains two React components: the primary chat view `App`
(lines 17-190) and a secondary variant `ChatComponent` (lines 198-259).
Both are event-driven UI components; we embed them as pure transition
functions on explicit state records.  The asynchronous `fetch` call is
embedded by splitting `handleSendMessage` at its `await` point into a
pre-phase (everything before the network call settles) and a settlement
phase, and by passing the outcome of the network call as an explicit
`FetchOutcome` value.  JavaScript's possibly-`undefined` field accesses
are embedded with an explicit `JsValue` type.
-/

/-- Message sender tag: `sender: 'user' | 'bot'` in App.js. -/
inductive Sender where
  | user
  | bot
deriving DecidableEq, Repr

/-- A JavaScript value as it can appear in a message's `text` field:
either a string or `undefined` (the result of reading an absent JSON
field, as in `botResponse.answer` on line 107). -/
inductive JsValue where
  | undefined
  | str (s : String)
deriving DecidableEq, Repr

/-- A chat turn: `{ text: ..., sender: ... }` (App.js lines 88, 107, 112). -/
structure Turn where
  text : JsValue
  sender : Sender
deriving DecidableEq, Repr

/-- The state of the primary `App` component (App.js lines 18-21):
`messages`, `userInput`, `isLoading`, `isListening`. -/
structure AppState where
  messages : List Turn
  userInput : String
  isLoading : Bool
  isListening : Bool
deriving DecidableEq, Repr

/-- The JSON request body sent by the dispatcher:
`JSON.stringify({ question: query })` (App.js line 98). -/
structure ChatRequest where
  question : String
deriving DecidableEq, Repr

/-- The settled outcome of the `fetch` call (App.js line 95): either the
promise rejects (transport failure, carrying the error message), or a
response arrives with an HTTP status and a parsed JSON object body.
JSON object bodies are embedded as association lists from field names to
string values; an absent key reads back as `undefined`. -/
inductive FetchOutcome where
  | networkError (message : String)
  | response (status : Nat) (body : List (String × String))
deriving DecidableEq, Repr

/-- `response.ok`: true exactly when the HTTP status is in 200-299. -/
def responseOk (status : Nat) : Bool :=
  decide (200 ≤ status ∧ status ≤ 299)

/-- Drop leading whitespace characters from a character list. -/
def dropLeadingWs : List Char → List Char
  | [] => []
  | c :: cs => if c.isWhitespace then dropLeadingWs cs else c :: cs

/-- JavaScript's `String.prototype.trim` (App.js line 85, second component
line 206): remove leading and trailing whitespace.  Embedded directly as
a structurally recursive function on the character list; whitespace is
modelled by `Char.isWhitespace`. -/
def jsTrim (s : String) : String :=
  String.mk ((dropLeadingWs (dropLeadingWs s.data).reverse).reverse)

/-- Reading a field of a parsed JSON object in JavaScript: the value when
the key is present, `undefined` otherwise (App.js line 107 reads
`botResponse.answer` with no shape validation). -/
def jsGet (body : List (String × String)) (key : String) : JsValue :=
  match body.lookup key with
  | some v => JsValue.str v
  | none => JsValue.undefined

/-- Truthiness of a `JsValue` under JavaScript coercion: `undefined` and
the empty string are falsy. -/
def jsTruthy (v : JsValue) : Bool :=
  match v with
  | JsValue.undefined => false
  | JsValue.str s => s ≠ ""

/-- JavaScript `v || fallback` specialised to producing a string, as used
in `errorData.detail || ...` (second component, line 224). -/
def jsValueOr (v : JsValue) (fallback : String) : String :=
  match v with
  | JsValue.undefined => fallback
  | JsValue.str s => if s = "" then fallback else s

/-- The fixed generic failure message of the primary chat view
(App.js line 112). -/
def genericFailureText : String :=
  "Sorry, something went wrong. Please try again."

/-- The fallback error message of the secondary component when no usable
`detail` field is present (line 224 builds
`HTTP error! status: ` followed by `response.status`). -/
def httpStatusMessage (status : Nat) : String :=
  "HTTP error! status: " ++ toString status

/-- First phase of `handleSendMessage` (App.js lines 83-91), up to the
`await fetch`: trim the input, return unchanged if the trimmed query is
empty, otherwise append the user turn, clear the input and set the
loading flag. -/
def handleSendMessage_pre (s : AppState) : AppState :=
  let query := jsTrim s.userInput
  if query = "" then s
  else
    { s with
      messages := s.messages ++ [{ text := JsValue.str query, sender := Sender.user }],
      userInput := "",
      isLoading := true }

/-- Settlement phase of `handleSendMessage` (App.js lines 101-116): on a
rejected fetch, append the generic failure bot turn; on a non-2xx
response, throw (line 102) into the catch block, appending the same
generic failure bot turn; on a 2xx response, append a bot turn carrying
`botResponse.answer` (possibly `undefined`).  The `finally` block clears
the loading flag in every case. -/
def handleSendMessage_settle (outcome : FetchOutcome) (s : AppState) : AppState :=
  let afterTry : AppState :=
    match outcome with
    | FetchOutcome.networkError _ =>
        { s with messages :=
            s.messages ++ [{ text := JsValue.str genericFailureText, sender := Sender.bot }] }
    | FetchOutcome.response status body =>
        if responseOk status then
          { s with messages :=
              s.messages ++ [{ text := jsGet body "answer", sender := Sender.bot }] }
        else
          { s with messages :=
              s.messages ++ [{ text := JsValue.str genericFailureText, sender := Sender.bot }] }
  { afterTry with isLoading := false }

/-- The whole `handleSendMessage` flow (App.js lines 83-117) for one
submission whose network call settles with `outcome`.  Returns the final
state together with the request body issued to the backend (`none` when
the empty-input guard fires and no call is made). -/
def handleSendMessage (s : AppState) (outcome : FetchOutcome) :
    AppState × Option ChatRequest :=
  let query := jsTrim s.userInput
  if query = "" then (s, none)
  else (handleSendMessage_settle outcome (handleSendMessage_pre s),
        some { question := query })

/-- A submit attempt through the chat-input form (App.js lines 159-187).
While `isLoading` is true the text input (line 166), the microphone
button (line 173) and the send button (line 182) are all disabled, so
the browser cannot fire the form's `onSubmit`; the attempt is rejected
with no state change and no request.  Otherwise `onSubmit` runs
`handleSendMessage`. -/
def chatInputForm_submit (s : AppState) (outcome : FetchOutcome) :
    AppState × Option ChatRequest :=
  if s.isLoading then (s, none)
  else handleSendMessage s outcome

/-- Externally visible actions of the microphone toggle: the unsupported-
browser alert (App.js line 121), `recognition.stop()` (line 125) and
`recognition.start()` (line 127). -/
inductive SpeechAction where
  | alertUnsupported
  | recStop
  | recStart
deriving DecidableEq, Repr

/-- `handleToggleListening` (App.js lines 119-130).  `hasRecognition`
embeds whether the module-level `recognition` singleton is non-null
(line 8).  Returns the new state and the list of external actions
performed. -/
def handleToggleListening (hasRecognition : Bool) (s : AppState) :
    AppState × List SpeechAction :=
  if !hasRecognition then (s, [SpeechAction.alertUnsupported])
  else
    let acts := if s.isListening then [SpeechAction.recStop] else [SpeechAction.recStart]
    ({ s with isListening := !s.isListening }, acts)

/-- One recognition alternative: `{ transcript: ... }`. -/
structure SpeechAlternative where
  transcript : String
deriving DecidableEq, Repr

/-- A speech recognition result event; `results` is the list of results,
each a list of alternatives, read as `event.results[0][0]` on line 64. -/
structure SpeechResultEvent where
  results : List (List SpeechAlternative)
deriving DecidableEq, Repr

/-- `recognition.onresult` (App.js lines 63-67): the best transcript of
the first result replaces the input text and listening stops.  If the
event carried no result (which the browser never delivers), the indexing
on line 64 would throw before any state update, leaving the state
unchanged. -/
def recognition_onresult (event : SpeechResultEvent) (s : AppState) : AppState :=
  match event.results with
  | (best :: _) :: _ => { s with userInput := best.transcript, isListening := false }
  | _ => s

/-- `recognition.onerror` (App.js lines 69-72): listening stops. -/
def recognition_onerror (s : AppState) : AppState :=
  { s with isListening := false }

/-- `recognition.onend` (App.js lines 74-76): listening stops. -/
def recognition_onend (s : AppState) : AppState :=
  { s with isListening := false }

/-- The text input's `onChange` handler (App.js line 164). -/
def input_onChange (v : String) (s : AppState) : AppState :=
  { s with userInput := v }

/-- State of the secondary `ChatComponent` (lines 199-202): `question`,
`answer`, `isLoading`, `error`. -/
structure ChatState where
  question : String
  answer : JsValue
  isLoading : Bool
  error : Option String
deriving DecidableEq, Repr

/-- `ChatComponent.handleSubmit` (lines 204-236) for one submission whose
network call settles with `outcome`: guard on the trimmed question, set
loading and clear error and answer, then on rejection store the error
message, on a non-2xx response store `errorData.detail ||` the HTTP
status message, on success store `data.answer`; `finally` clears the
loading flag. -/
def ChatComponent_handleSubmit (s : ChatState) (outcome : FetchOutcome) : ChatState :=
  if jsTrim s.question = "" then s
  else
    let s1 : ChatState := { s with isLoading := true, error := none, answer := JsValue.str "" }
    let s2 : ChatState :=
      match outcome with
      | FetchOutcome.networkError msg => { s1 with error := some msg }
      | FetchOutcome.response status body =>
          if responseOk status then
            { s1 with answer := jsGet body "answer" }
          else
            let shown := jsValueOr (jsGet body "detail") (httpStatusMessage status)
            { s1 with error := some shown }
    { s2 with isLoading := false }

/-- Does the fetch outcome take the failure path of `handleSendMessage`
(transport rejection, or a response with `response.ok` false)? -/
def isFailure (outcome : FetchOutcome) : Bool :=
  match outcome with
  | FetchOutcome.networkError _ => true
  | FetchOutcome.response status _ => !responseOk status

/-- Sample states used to instantiate the universally quantified theorems
at concrete inputs. -/
def sampleReady : AppState :=
  { messages := [], userInput := " hi ", isLoading := false, isListening := false }

def sampleLoading : AppState :=
  { messages := [], userInput := "q", isLoading := true, isListening := false }

def sampleBlank : AppState :=
  { messages := [], userInput := "   ", isLoading := false, isListening := false }

def sampleParis : AppState :=
  { messages := [], userInput := "What is the capital of France?",
    isLoading := false, isListening := false }

/-- C1: for every input whose trimmed text is non-empty, submitting
appends exactly one user turn carrying the trimmed text immediately
(already before the network call settles), and exactly one bot turn once
the call settles, whether it succeeds or fails, with the user turn
preceding the bot turn in the conversation order. -/
theorem c1_submit_appends_user_then_bot (s : AppState) (outcome : FetchOutcome)
    (h : jsTrim s.userInput ≠ "") :
    (handleSendMessage_pre s).messages
      = s.messages ++ [{ text := JsValue.str (jsTrim s.userInput), sender := Sender.user }] ∧
    ∃ bt : Turn, bt.sender = Sender.bot ∧
      (handleSendMessage s outcome).1.messages
        = s.messages
            ++ [{ text := JsValue.str (jsTrim s.userInput), sender := Sender.user }, bt] := by
  constructor
  · simp [handleSendMessage_pre, h]
  · cases outcome with
    | networkError msg =>
        exact ⟨{ text := JsValue.str genericFailureText, sender := Sender.bot }, rfl,
          by simp [handleSendMessage, handleSendMessage_pre, handleSendMessage_settle, h]⟩
    | response status body =>
        by_cases hok : responseOk status = true
        · exact ⟨{ text := jsGet body "answer", sender := Sender.bot }, rfl,
            by simp [handleSendMessage, handleSendMessage_pre, handleSendMessage_settle, h, hok]⟩
        · exact ⟨{ text := JsValue.str genericFailureText, sender := Sender.bot }, rfl,
            by simp [handleSendMessage, handleSendMessage_pre, handleSendMessage_settle, h, hok]⟩

theorem c1_submit_appends_user_then_bot_witness :
    jsTrim sampleReady.userInput ≠ "" ∧
    ((handleSendMessage_pre sampleReady).messages
      = sampleReady.messages
          ++ [{ text := JsValue.str (jsTrim sampleReady.userInput), sender := Sender.user }] ∧
    ∃ bt : Turn, bt.sender = Sender.bot ∧
      (handleSendMessage sampleReady (FetchOutcome.response 200 [("answer", "yo")])).1.messages
        = sampleReady.messages
            ++ [{ text := JsValue.str (jsTrim sampleReady.userInput), sender := Sender.user }, bt]) :=
  ⟨by decide,
   c1_submit_appends_user_then_bot sampleReady
     (FetchOutcome.response 200 [("answer", "yo")]) (by decide)⟩

/-- C2: while a request is in flight (`isLoading` true) a submit attempt
through the chat-input form is rejected: the state is unchanged (so no
second user turn is appended) and no second network request is issued. -/
theorem c2_loading_rejects_submit (s : AppState) (outcome : FetchOutcome)
    (h : s.isLoading = true) :
    chatInputForm_submit s outcome = (s, none) := by
  simp [chatInputForm_submit, h]

theorem c2_loading_rejects_submit_witness :
    sampleLoading.isLoading = true ∧
    chatInputForm_submit sampleLoading (FetchOutcome.networkError "boom")
      = (sampleLoading, none) :=
  ⟨rfl, c2_loading_rejects_submit sampleLoading (FetchOutcome.networkError "boom") rfl⟩

/-- C3: submitting an empty or whitespace-only input (trimmed text empty)
is a no-op: no turn is appended, the state is unchanged, and no network
request is issued. -/
theorem c3_blank_input_is_noop (s : AppState) (outcome : FetchOutcome)
    (h : jsTrim s.userInput = "") :
    handleSendMessage s outcome = (s, none) := by
  simp [handleSendMessage, h]

theorem c3_blank_input_is_noop_witness :
    jsTrim sampleBlank.userInput = "" ∧
    handleSendMessage sampleBlank (FetchOutcome.response 200 [("answer", "yo")])
      = (sampleBlank, none) :=
  ⟨by decide,
   c3_blank_input_is_noop sampleBlank (FetchOutcome.response 200 [("answer", "yo")])
     (by decide)⟩

/-- C4: for every submission (non-empty trimmed input) the loading flag is
false again after settlement regardless of outcome, and when the outcome
is a transport failure or a non-2xx response, exactly one bot turn is
appended whose text is the fixed generic failure string; the flow is a
total function, so no exception escapes it. -/
theorem c4_failure_appends_generic_and_clears_loading (s : AppState)
    (outcome : FetchOutcome) (h : jsTrim s.userInput ≠ "") :
    (handleSendMessage s outcome).1.isLoading = false ∧
    (isFailure outcome = true →
      (handleSendMessage s outcome).1.messages
        = s.messages
            ++ [{ text := JsValue.str (jsTrim s.userInput), sender := Sender.user },
                { text := JsValue.str genericFailureText, sender := Sender.bot }]) := by
  cases outcome with
  | networkError msg =>
      refine ⟨?_, fun _ => ?_⟩ <;>
        simp [handleSendMessage, handleSendMessage_pre, handleSendMessage_settle, h]
  | response status body =>
      by_cases hok : responseOk status = true
      · refine ⟨?_, fun hf => ?_⟩
        · simp [handleSendMessage, handleSendMessage_pre, handleSendMessage_settle, h, hok]
        · exact absurd hf (by simp [isFailure, hok])
      · refine ⟨?_, fun _ => ?_⟩ <;>
          simp [handleSendMessage, handleSendMessage_pre, handleSendMessage_settle, h, hok]

theorem c4_failure_appends_generic_and_clears_loading_witness :
    jsTrim sampleReady.userInput ≠ "" ∧
    ((handleSendMessage sampleReady (FetchOutcome.networkError "boom")).1.isLoading = false ∧
    (isFailure (FetchOutcome.networkError "boom") = true →
      (handleSendMessage sampleReady (FetchOutcome.networkError "boom")).1.messages
        = sampleReady.messages
            ++ [{ text := JsValue.str (jsTrim sampleReady.userInput), sender := Sender.user },
                { text := JsValue.str genericFailureText, sender := Sender.bot }])) :=
  ⟨by decide,
   c4_failure_appends_generic_and_clears_loading sampleReady
     (FetchOutcome.networkError "boom") (by decide)⟩

/-- C5: on a 2xx response whose JSON body contains an `answer` string, the
appended bot turn carries that string verbatim, with no sanitization and
no truncation. -/
theorem c5_success_answer_verbatim (s : AppState) (status : Nat)
    (body : List (String × String)) (a : String)
    (h : jsTrim s.userInput ≠ "") (hok : responseOk status = true)
    (ha : body.lookup "answer" = some a) :
    (handleSendMessage s (FetchOutcome.response status body)).1.messages
      = s.messages
          ++ [{ text := JsValue.str (jsTrim s.userInput), sender := Sender.user },
              { text := JsValue.str a, sender := Sender.bot }] := by
  simp [handleSendMessage, handleSendMessage_pre, handleSendMessage_settle, jsGet, h, hok, ha]

theorem c5_success_answer_verbatim_witness :
    jsTrim sampleParis.userInput ≠ "" ∧
    responseOk 200 = true ∧
    List.lookup "answer" [("answer", "Paris is the capital of France.")]
      = some "Paris is the capital of France." ∧
    (handleSendMessage sampleParis
        (FetchOutcome.response 200 [("answer", "Paris is the capital of France.")])).1.messages
      = sampleParis.messages
          ++ [{ text := JsValue.str (jsTrim sampleParis.userInput), sender := Sender.user },
              { text := JsValue.str "Paris is the capital of France.", sender := Sender.bot }] :=
  ⟨by decide, by decide, by decide,
   c5_success_answer_verbatim sampleParis 200
     [("answer", "Paris is the capital of France.")]
     "Paris is the capital of France." (by decide) (by decide) (by decide)⟩

/-- C6: the conversation is append-only.  Both phases of the submission
flow and the form wrapper only ever append turns at the end of the
message list, every other state-changing handler leaves the message list
untouched, no existing turn is mutated, removed or reordered, and every
turn's sender is user or bot. -/
theorem c6_conversation_append_only (s : AppState) (outcome : FetchOutcome)
    (hasRec : Bool) (ev : SpeechResultEvent) (v : String) (t : Turn) :
    (∃ l, (handleSendMessage_pre s).messages = s.messages ++ l) ∧
    (∃ l, (handleSendMessage_settle outcome s).messages = s.messages ++ l) ∧
    (∃ l, (handleSendMessage s outcome).1.messages = s.messages ++ l) ∧
    (∃ l, (chatInputForm_submit s outcome).1.messages = s.messages ++ l) ∧
    (handleToggleListening hasRec s).1.messages = s.messages ∧
    (recognition_onresult ev s).messages = s.messages ∧
    (recognition_onerror s).messages = s.messages ∧
    (recognition_onend s).messages = s.messages ∧
    (input_onChange v s).messages = s.messages ∧
    (t.sender = Sender.user ∨ t.sender = Sender.bot) := by
  have hsettle : ∀ st : AppState,
      ∃ l, (handleSendMessage_settle outcome st).messages = st.messages ++ l := by
    intro st
    cases outcome with
    | networkError msg =>
        exact ⟨[{ text := JsValue.str genericFailureText, sender := Sender.bot }],
          by simp [handleSendMessage_settle]⟩
    | response status body =>
        by_cases hok : responseOk status = true
        · exact ⟨[{ text := jsGet body "answer", sender := Sender.bot }],
            by simp [handleSendMessage_settle, hok]⟩
        · exact ⟨[{ text := JsValue.str genericFailureText, sender := Sender.bot }],
            by simp [handleSendMessage_settle, hok]⟩
  have hpre : ∃ l, (handleSendMessage_pre s).messages = s.messages ++ l := by
    by_cases h : jsTrim s.userInput = ""
    · exact ⟨[], by simp [handleSendMessage_pre, h]⟩
    · exact ⟨[{ text := JsValue.str (jsTrim s.userInput), sender := Sender.user }],
        by simp [handleSendMessage_pre, h]⟩
  have hfull : ∃ l, (handleSendMessage s outcome).1.messages = s.messages ++ l := by
    by_cases h : jsTrim s.userInput = ""
    · exact ⟨[], by simp [handleSendMessage, h]⟩
    · obtain ⟨l1, hl1⟩ := hpre
      obtain ⟨l2, hl2⟩ := hsettle (handleSendMessage_pre s)
      refine ⟨l1 ++ l2, ?_⟩
      simp only [handleSendMessage, h, if_neg, ite_false]
      rw [hl2, hl1, List.append_assoc]
  have hform : ∃ l, (chatInputForm_submit s outcome).1.messages = s.messages ++ l := by
    by_cases hl : s.isLoading = true
    · exact ⟨[], by simp [chatInputForm_submit, hl]⟩
    · obtain ⟨l, hfl⟩ := hfull
      refine ⟨l, ?_⟩
      simpa [chatInputForm_submit, hl] using hfl
  refine ⟨hpre, hsettle s, hfull, hform, ?_, ?_, rfl, rfl, rfl, ?_⟩
  · cases hasRec with
    | false => simp [handleToggleListening]
    | true =>
        by_cases hli : s.isListening = true <;>
          simp [handleToggleListening, hli]
  · rcases ev with ⟨rs⟩
    match rs with
    | [] => rfl
    | [] :: _ => rfl
    | (a :: as) :: more => rfl
  · rcases t with ⟨tx, ts⟩
    cases ts
    · exact Or.inl rfl
    · exact Or.inr rfl

/-- C7: invoking the microphone toggle when the host environment provides
no speech-recognition capability performs exactly one action, the
user-visible unsupported notice, and leaves the whole component state
(conversation included) unchanged. -/
theorem c7_toggle_unsupported_notice_only (s : AppState) :
    handleToggleListening false s = (s, [SpeechAction.alertUnsupported]) := by
  simp [handleToggleListening]

/-- C8: when the speech bridge delivers a recognized result, the current
input text is replaced by the best transcript of that result
(`event.results[0][0].transcript`) and the listening flag is set to
false; nothing else changes. -/
theorem c8_onresult_replaces_input_stops_listening (s : AppState)
    (best : SpeechAlternative) (alts : List SpeechAlternative)
    (more : List (List SpeechAlternative)) :
    recognition_onresult { results := (best :: alts) :: more } s
      = { s with userInput := best.transcript, isListening := false } := rfl

def sampleChat : ChatState :=
  { question := "q", answer := JsValue.str "", isLoading := false, error := none }

/-- C9 as stated is false: with a non-2xx response whose body contains the
detail string "" (the body does contain a `detail` string), the
secondary variant's displayed error is the HTTP-status fallback, not the
server-provided detail, because `errorData.detail || ...` treats the
empty string as falsy. -/
theorem c9_counterexample_empty_detail :
    List.lookup "detail" [("detail", "")] = some "" ∧
    (ChatComponent_handleSubmit sampleChat
        (FetchOutcome.response 500 [("detail", "")])).error ≠ some "" := by
  decide

/-- C9 (amended): on a non-2xx response the primary chat view appends a
bot turn carrying the fixed generic message, independent of any
server-provided error body, while the secondary variant displays the
server-provided `detail` string when the error body contains a
non-empty one, and falls back to an HTTP-status message when `detail`
is absent or empty (falsy). -/
theorem c9_error_display_variants (s : AppState) (cs : ChatState)
    (status : Nat) (body : List (String × String))
    (hA : jsTrim s.userInput ≠ "") (hC : jsTrim cs.question ≠ "")
    (hok : responseOk status = false) :
    (handleSendMessage s (FetchOutcome.response status body)).1.messages
      = s.messages
          ++ [{ text := JsValue.str (jsTrim s.userInput), sender := Sender.user },
              { text := JsValue.str genericFailureText, sender := Sender.bot }] ∧
    (ChatComponent_handleSubmit cs (FetchOutcome.response status body)).error
      = some (match body.lookup "detail" with
              | some d => if d = "" then httpStatusMessage status else d
              | none => httpStatusMessage status) := by
  constructor
  · simp [handleSendMessage, handleSendMessage_pre, handleSendMessage_settle, hA, hok]
  · simp only [ChatComponent_handleSubmit, hC, if_neg, ite_false, hok,
      Bool.false_eq_true, jsValueOr, jsGet]
    cases hd : body.lookup "detail" with
    | none => rfl
    | some d => by_cases hde : d = "" <;> simp [hde]

theorem c9_error_display_variants_witness :
    jsTrim sampleReady.userInput ≠ "" ∧
    jsTrim sampleChat.question ≠ "" ∧
    responseOk 404 = false ∧
    ((handleSendMessage sampleReady (FetchOutcome.response 404 [("detail", "boom")])).1.messages
      = sampleReady.messages
          ++ [{ text := JsValue.str (jsTrim sampleReady.userInput), sender := Sender.user },
              { text := JsValue.str genericFailureText, sender := Sender.bot }] ∧
    (ChatComponent_handleSubmit sampleChat
        (FetchOutcome.response 404 [("detail", "boom")])).error
      = some (match List.lookup "detail" [("detail", "boom")] with
              | some d => if d = "" then httpStatusMessage 404 else d
              | none => httpStatusMessage 404)) :=
  ⟨by decide, by decide, by decide,
   c9_error_display_variants sampleReady sampleChat 404 [("detail", "boom")]
     (by decide) (by decide) (by decide)⟩

/-- C10: on a 2xx response whose JSON body lacks an `answer` field, the
primary chat view still appends a bot turn, its text being the absent
value `undefined` rather than an error or the failure branch, and the
loading flag is cleared; no validation of the response shape occurs. -/
theorem c10_missing_answer_appends_undefined (s : AppState) (status : Nat)
    (body : List (String × String)) (h : jsTrim s.userInput ≠ "")
    (hok : responseOk status = true) (ha : body.lookup "answer" = none) :
    (handleSendMessage s (FetchOutcome.response status body)).1.messages
      = s.messages
          ++ [{ text := JsValue.str (jsTrim s.userInput), sender := Sender.user },
              { text := JsValue.undefined, sender := Sender.bot }] ∧
    (handleSendMessage s (FetchOutcome.response status body)).1.isLoading = false := by
  constructor <;>
    simp [handleSendMessage, handleSendMessage_pre, handleSendMessage_settle,
      jsGet, h, hok, ha]

theorem c10_missing_answer_appends_undefined_witness :
    jsTrim sampleReady.userInput ≠ "" ∧
    responseOk 200 = true ∧
    List.lookup "answer" ([] : List (String × String)) = none ∧
    ((handleSendMessage sampleReady (FetchOutcome.response 200 [])).1.messages
      = sampleReady.messages
          ++ [{ text := JsValue.str (jsTrim sampleReady.userInput), sender := Sender.user },
              { text := JsValue.undefined, sender := Sender.bot }] ∧
    (handleSendMessage sampleReady (FetchOutcome.response 200 [])).1.isLoading = false) :=
  ⟨by decide, by decide, by decide,
   c10_missing_answer_appends_undefined sampleReady 200 []
     (by decide) (by decide) (by decide)⟩
